import Mathlib

/-!
Verification development for `kannon.py`, a curses-based terminal system
monitor.  The Python source is shallowly embedded into Lean:

* Python floats carry exact tick counters and percentages here; they are
  modelled as exact rationals (`ℚ`).  Python ints are `ℤ` (or `ℕ` where the
  source guarantees non-negativity, e.g. uids).
* Python `//` on ints/floats is floor division, modelled by `Int.fdiv`
  respectively `⌊·/·⌋`; Python `int(x)` truncates toward zero (`pyTrunc`).
* Python dicts built by repeated assignment are modelled as functions
  `k → Option v` updated by `dict_insert` (later assignments win).
* The curses surface is abstract: a draw is a `(row, col, text)` triple and
  `display_text` reproduces the clipping logic of the source.  Color
  attributes are not modelled (no claim mentions them).
* File reads that the source wraps in `try/except` appear as total functions
  on the already-read content; reads the source does *not* guard return
  `Except PyErr _`, with `none` input standing for an unreadable file.
* Numeric rendering of floats (`f"{x:.1f}"`) is modelled by `pyFmt1`, exact
  one-decimal round-half-even on rationals.
-/

namespace Kannon

/-! ## Python-style primitives -/

/-- Python `int(x)` for a float `x`: truncation toward zero. -/
def pyTrunc (q : ℚ) : ℤ :=
  if 0 ≤ q then ⌊q⌋ else -⌊-q⌋

/-- Python float `%` for a positive literal divisor: `a - b * ⌊a / b⌋`. -/
def pyMod (a b : ℚ) : ℚ := a - b * ⌊a / b⌋

/-- Python float `//`: `⌊a / b⌋` as a rational. -/
def pyFloorDiv (a b : ℚ) : ℚ := (⌊a / b⌋ : ℚ)

/-- Value of a digit list read in base 10 (helper for `int`/`float` parsing). -/
def digitsToNat (l : List Char) : ℕ :=
  l.foldl (fun a c => a * 10 + (c.toNat - 48)) 0

/-- Parse a non-empty all-digit character list, else `none`. -/
def parseDigits (l : List Char) : Option ℕ :=
  if l ≠ [] ∧ l.all Char.isDigit then some (digitsToNat l) else none

/-- Python `int(s)` on a field string: optional sign then digits, raising
(= `none`) otherwise. -/
def parsePyIntL (l : List Char) : Option ℤ :=
  match l with
  | '-' :: rest => (parseDigits rest).map (fun n => -(n : ℤ))
  | '+' :: rest => (parseDigits rest).map (fun n => (n : ℤ))
  | _ => (parseDigits l).map (fun n => (n : ℤ))

/-- Python `int(s)` on a `String`. -/
def parsePyInt (s : String) : Option ℤ := parsePyIntL s.data

/-- Python `float(s)`: optional sign, digits with at most one decimal point,
at least one digit overall. -/
def parsePyFloat (s : String) : Option ℚ :=
  let (sgn, body) :=
    match s.data with
    | '-' :: rest => ((-1 : ℚ), rest)
    | '+' :: rest => ((1 : ℚ), rest)
    | l => ((1 : ℚ), l)
  if body.count '.' = 0 then
    (parseDigits body).map (fun n => sgn * n)
  else if body.count '.' = 1 then
    let ip := body.takeWhile (fun c => c ≠ '.')
    let fp := (body.dropWhile (fun c => c ≠ '.')).drop 1
    if (ip ++ fp) ≠ [] ∧ (ip ++ fp).all Char.isDigit then
      some (sgn * ((digitsToNat ip : ℚ) + (digitsToNat fp : ℚ) / 10 ^ fp.length))
    else none
  else none

/-- Round half to even, the rounding used by Python float formatting. -/
def pyRoundHalfEven (q : ℚ) : ℤ :=
  let f := ⌊q⌋
  let r := q - f
  if r < 1 / 2 then f
  else if 1 / 2 < r then f + 1
  else if f % 2 = 0 then f else f + 1

/-- Model of Python `f"{q:.1f}"`: one decimal digit, round half to even. -/
def pyFmt1 (q : ℚ) : String :=
  let n := pyRoundHalfEven (q * 10)
  let sgn := if n < 0 then "-" else ""
  let m := n.natAbs
  sgn ++ toString (m / 10) ++ "." ++ toString (m % 10)

/-- Left-pad with spaces to width `w` (Python `f"{s:>w}"`). -/
def padLeft (s : String) (w : ℕ) : String :=
  String.mk (List.replicate (w - s.length) ' ') ++ s

/-- Right-pad with spaces to width `w` (Python `f"{s:<w}"`). -/
def padRight (s : String) (w : ℕ) : String :=
  s ++ String.mk (List.replicate (w - s.length) ' ')

/-- Center with spaces to width `w` (Python `f"{s:^w}"`): the extra space,
if any, goes to the right. -/
def padCenter (s : String) (w : ℕ) : String :=
  let pad := w - s.length
  let left := pad / 2
  String.mk (List.replicate left ' ') ++ s ++
    String.mk (List.replicate (pad - left) ' ')

/-- Python `f"{n:02}"` for the non-negative ints the source formats. -/
def pad2 (n : ℤ) : String :=
  if 0 ≤ n ∧ n < 10 then "0" ++ toString n else toString n

/-- Python dict update `d[k] = v`. -/
def dict_insert {α β : Type} [DecidableEq α] (d : α → Option β) (k : α) (v : β) :
    α → Option β :=
  fun q => if q = k then some v else d q

/-! ## DeltaEngine (`calculate_cpu_usage`, lines 58-66, and the per-process
formula inside `main`, lines 375-391) -/

/-- `calculate_cpu_usage(curr, prev)` from two `(total, idle)` snapshots,
transcribed from kannon.py lines 58-66. -/
def calculate_cpu_usage (curr prev : ℚ × ℚ) : ℚ :=
  let total_d := curr.1 - prev.1
  let idle_d := curr.2 - prev.2
  if total_d ≤ 0 then 0
  else ((total_d - idle_d) / total_d) * 100

/-- `sys_total_delta = max(1, agg_curr[0] - agg_prev[0])` (line 375). -/
def sys_total_delta (aggCurr aggPrev : ℚ × ℚ) : ℚ :=
  max 1 (aggCurr.1 - aggPrev.1)

/-- `os.cpu_count() or 1` (line 229): `None` and `0` both fall back to 1. -/
def cpu_count_or_1 (n : Option ℕ) : ℕ :=
  match n with
  | none => 1
  | some k => if k = 0 then 1 else k

/-- The per-process cpu percentage of lines 383-389: zero without a
previous-cycle tick entry, else the tick delta over `sys_total_delta`,
times 100, times the logical core count. -/
def proc_cpu_usage (prevTicks : Option ℤ) (ticks : ℤ) (std : ℚ) (cc : ℕ) : ℚ :=
  match prevTicks with
  | none => 0
  | some p => (((ticks : ℤ) - p : ℤ) / std) * 100 * cc

/-! ## ViewModel: sort key, scroll offset, key dispatch
(`main`, lines 403 and 462-490) -/

inductive SortKey
  | cpu
  | mem
  | pid
  | time
deriving DecidableEq, Repr

inductive KeyEvent
  | kNoKey
  | kQ
  | kP
  | kM
  | kN
  | kT
  | kUp
  | kDown
  | kPpage
  | kNpage
  | kHome
  | kEnd
  | kResize
deriving DecidableEq, Repr

/-- `scroll_offset = max(0, min(scroll_offset, max(0, len(display_list) - 1)))`
(line 403), the per-cycle refresh clamp. -/
def clamp_scroll (s : ℤ) (len : ℕ) : ℤ :=
  max 0 (min s (max 0 ((len : ℤ) - 1)))

/-- The key dispatch of lines 462-490, acting on `(sort_key, scroll_offset)`
with the current `display_list` length and `max_proc_rows`.  `q` exits the
loop and `KEY_RESIZE` only clears the screen; both leave the state as is. -/
def handle_key (k : KeyEvent) (sk : SortKey) (s : ℤ) (len mpr : ℕ) :
    SortKey × ℤ :=
  match k with
  | .kNoKey => (sk, s)
  | .kQ => (sk, s)
  | .kP => (.cpu, 0)
  | .kM => (.mem, 0)
  | .kN => (.pid, 0)
  | .kT => (.time, 0)
  | .kUp => (sk, max 0 (s - 1))
  | .kDown => (sk, min (max 0 ((len : ℤ) - 1)) (s + 1))
  | .kPpage => (sk, max 0 (s - (mpr : ℤ)))
  | .kNpage => (sk, min ((len : ℤ) - 1) (s + (mpr : ℤ)))
  | .kHome => (sk, 0)
  | .kEnd => (sk, max 0 ((len : ℤ) - (mpr : ℤ)))
  | .kResize => (sk, s)

/-! ## MetricsSampler: memory, uptime, load average
(`get_memory_info` lines 164-177, `get_uptime` lines 199-211,
`get_loadavg` lines 214-218)

These three functions contain no `try/except`; Python exceptions are made
explicit as `Except PyErr`.  A file is given as `none` when the `open` or
read raises (vanished file, permission denied), otherwise as its
already-whitespace-tokenized content (`/proc/meminfo` line by line). -/

inductive PyErr
  | ioError
  | valueError
  | indexError
deriving DecidableEq, Repr

structure MemInfo where
  memTotal : ℤ
  memAvailable : ℤ
  swapTotal : ℤ
  swapFree : ℤ
deriving DecidableEq, Repr

/-- One line of the `get_memory_info` loop: on a matching tag the second
token is parsed with `int(...)` (raising on a missing or malformed field),
otherwise the accumulator passes through. -/
def mem_step (acc : MemInfo) (line : List String) : Except PyErr MemInfo :=
  match line with
  | [] => .ok acc
  | tag :: rest =>
    if tag = "MemTotal:" then
      match rest with
      | [] => .error .indexError
      | v :: _ =>
        match parsePyInt v with
        | none => .error .valueError
        | some n => .ok { acc with memTotal := n }
    else if tag = "MemAvailable:" then
      match rest with
      | [] => .error .indexError
      | v :: _ =>
        match parsePyInt v with
        | none => .error .valueError
        | some n => .ok { acc with memAvailable := n }
    else if tag = "SwapTotal:" then
      match rest with
      | [] => .error .indexError
      | v :: _ =>
        match parsePyInt v with
        | none => .error .valueError
        | some n => .ok { acc with swapTotal := n }
    else if tag = "SwapFree:" then
      match rest with
      | [] => .error .indexError
      | v :: _ =>
        match parsePyInt v with
        | none => .error .valueError
        | some n => .ok { acc with swapFree := n }
    else .ok acc

def mem_fold (acc : MemInfo) : List (List String) → Except PyErr MemInfo
  | [] => .ok acc
  | l :: rest =>
    match mem_step acc l with
    | .ok acc2 => mem_fold acc2 rest
    | .error e => .error e

/-- `get_memory_info()` (lines 164-177): all four counters start at zero;
lines are scanned for the four tags.  There is no exception handler, so an
unreadable file or malformed field propagates. -/
def get_memory_info (file : Option (List (List String))) :
    Except PyErr MemInfo :=
  match file with
  | none => .error .ioError
  | some lines => mem_fold ⟨0, 0, 0, 0⟩ lines

/-- `get_uptime()` (lines 199-211): `float(f.read().split()[0])`, then
day/hour/minute/second decomposition into a string.  No exception handler. -/
def get_uptime (file : Option (List String)) : Except PyErr String :=
  match file with
  | none => .error .ioError
  | some toks =>
    match toks with
    | [] => .error .indexError
    | t :: _ =>
      match parsePyFloat t with
      | none => .error .valueError
      | some q =>
        let days := pyTrunc (pyFloorDiv q 86400)
        let hours := pyTrunc (pyFloorDiv (pyMod q 86400) 3600)
        let minutes := pyTrunc (pyFloorDiv (pyMod q 3600) 60)
        let seconds := pyTrunc (pyMod q 60)
        if 0 < days then
          .ok (toString days ++ " days, " ++ toString hours ++ ":" ++
            pad2 minutes ++ ":" ++ pad2 seconds)
        else
          .ok (toString hours ++ ":" ++ pad2 minutes ++ ":" ++ pad2 seconds)

/-- `get_loadavg()` (lines 214-218): the first three whitespace fields,
joined by single spaces.  Fewer than three fields raises; no handler. -/
def get_loadavg (file : Option (List String)) : Except PyErr String :=
  match file with
  | none => .error .ioError
  | some toks =>
    match toks with
    | a :: b :: c :: _ => .ok (a ++ " " ++ b ++ " " ++ c)
    | _ => .error .indexError

/-! ## MetricsSampler: the `/proc/pid/stat` record
(`get_process_info`, lines 111-124) -/

/-- Python `str.find(c)` index as an option (`none` = not found). -/
def findIdxOpt (c : Char) : List Char → Option ℕ
  | [] => none
  | x :: xs => if x = c then some 0 else (findIdxOpt c xs).map (· + 1)

/-- Python `str.rfind(c)` index as an option (`none` = not found). -/
def rfindIdxOpt (c : Char) : List Char → Option ℕ
  | [] => none
  | x :: xs =>
    match rfindIdxOpt c xs with
    | some i => some (i + 1)
    | none => if x = c then some 0 else none

/-- `content.find(c)`: first index or `-1`. -/
def pyFind (c : Char) (l : List Char) : ℤ :=
  (findIdxOpt c l).elim (-1) (fun n => (n : ℤ))

/-- `content.rfind(c)`: last index or `-1`. -/
def pyRfind (c : Char) (l : List Char) : ℤ :=
  (rfindIdxOpt c l).elim (-1) (fun n => (n : ℤ))

/-- Python slice `l[a:b]` for the non-negative indices this program uses. -/
def pySlice (l : List Char) (a b : ℤ) : List Char :=
  (l.drop a.toNat).take (b - a).toNat

/-- Whitespace for Python `str.split()` (the characters occurring in
`/proc` records). -/
def isWs (c : Char) : Bool :=
  c = ' ' || c = '\n' || c = '\t'

def splitWsAux : List Char → List Char → List (List Char)
  | [], acc => if acc.isEmpty then [] else [acc.reverse]
  | c :: rest, acc =>
    if isWs c then
      if acc.isEmpty then splitWsAux rest []
      else acc.reverse :: splitWsAux rest []
    else splitWsAux rest (c :: acc)

/-- Python `str.split()`: split on whitespace runs, dropping empty pieces. -/
def splitWs (l : List Char) : List (List Char) :=
  splitWsAux l []

/-- The `/proc/pid/stat` part of `get_process_info` (lines 112-124): the
command name is `content[first_paran + 1 : last_paran]`, and the whitespace
fields of `content[last_paran + 2 :]` give the state (field 0) and
`utime + stime` (fields 11 and 12).  A missing field (`IndexError`) or a
malformed number (`ValueError`) is caught by the source and yields `none`. -/
def parse_stat (content : List Char) : Option (List Char × List Char × ℤ) :=
  let first_paran := pyFind '(' content
  let last_paran := pyRfind ')' content
  let name := pySlice content (first_paran + 1) last_paran
  let fields := splitWs (content.drop (last_paran + 2).toNat)
  match fields.get? 0, fields.get? 11, fields.get? 12 with
  | some st, some a, some b =>
    match parsePyIntL a, parsePyIntL b with
    | some x, some y => some (name, st, x + y)
    | _, _ => none
  | _, _, _ => none

/-! ## IdentityCache (`get_user`, lines 153-161) -/

/-- `get_user(uid, cache)` (lines 153-161).  The cache is a dict
`uid → name`; `pwdb` is the system password database (`pwd.getpwuid`,
`none` = `KeyError`).  The third component counts how many times the
identity lookup was performed during the call (0 or 1). -/
def get_user (uid : ℕ) (cache : ℕ → Option String) (pwdb : ℕ → Option String) :
    String × (ℕ → Option String) × ℕ :=
  match cache uid with
  | some u => (u, cache, 0)
  | none =>
    let user :=
      match pwdb uid with
      | some n => n
      | none => toString uid
    (user, dict_insert cache uid user, 1)

/-! ## Renderer truncation (`main`, lines 342 and 418-421) -/

/-- `name_width = max(4, max_x - 67)` (line 342). -/
def name_width (maxX : ℕ) : ℕ :=
  max 4 (maxX - 67)

/-- Username truncation (lines 418-419): over 12 characters, keep 11 and
append `~`. -/
def trunc_user (user : List Char) : List Char :=
  if 12 < user.length then user.take 11 ++ ['~'] else user

/-- Command-name truncation (lines 420-421): over `w` characters, keep
`w - 1` and append the ellipsis `…`. -/
def trunc_name (nm : List Char) (w : ℕ) : List Char :=
  if w < nm.length then nm.take (w - 1) ++ ['…'] else nm

/-! ## Renderer primitives (`display_text` lines 18-33, `draw_bar` lines
45-55, `format_kb` lines 180-187, `format_time` lines 190-196)

A draw is a `(row, col, text)` triple on the abstract surface; the curses
color attribute argument is not modelled. -/

structure DrawOp where
  row : ℤ
  col : ℤ
  text : String
deriving DecidableEq, Repr

/-- `display_text` (lines 18-33): clip out-of-screen writes, truncate the
text to the available width. -/
def display_text (maxY maxX : ℕ) (row col : ℤ) (text : String) : List DrawOp :=
  if row < 0 ∨ (maxY : ℤ) ≤ row ∨ (maxX : ℤ) ≤ col ∨ col < 0 then []
  else
    let available := (maxX : ℤ) - col
    if available ≤ 0 then []
    else [⟨row, col, String.mk (text.data.take available.toNat)⟩]

/-- `draw_bar` (lines 45-55): percent clamped to `[0, 100]`,
`fill = int(width * (percent / 100))` (truncation = floor here since the
clamped percent is non-negative), then four `display_text` calls. -/
def draw_bar (maxY maxX : ℕ) (row col : ℤ) (percent : ℚ) (width : ℕ) :
    List DrawOp :=
  let p := max 0 (min 100 percent)
  let fill := (⌊(width : ℚ) * (p / 100)⌋).toNat
  let empty := width - fill
  display_text maxY maxX row col "[" ++
  display_text maxY maxX row (col + 1) (String.mk (List.replicate fill '|')) ++
  display_text maxY maxX row (col + 1 + fill) (String.mk (List.replicate empty ' ')) ++
  display_text maxY maxX row (col + 1 + width) ("] " ++ padLeft (pyFmt1 p) 5 ++ "%")

/-- `format_kb` (lines 180-187). -/
def format_kb (kb : ℤ) : String :=
  if kb < 1024 then toString kb ++ "K"
  else if kb < 1024 * 1024 then pyFmt1 ((kb : ℚ) / 1024) ++ "M"
  else pyFmt1 ((kb : ℚ) / (1024 * 1024)) ++ "G"

/-- `format_time` (lines 190-196). -/
def format_time (seconds : ℚ) : String :=
  let t := pyTrunc seconds
  let minutes0 := Int.fdiv t 60
  let secs := Int.emod t 60
  let hours := Int.fdiv minutes0 60
  let minutes := Int.emod minutes0 60
  if 0 < hours then toString hours ++ ":" ++ pad2 minutes ++ ":" ++ pad2 secs
  else toString minutes ++ ":" ++ pad2 secs

/-! ## The controller loop body (`main`, lines 236-490)

One iteration of the `while True` loop is `iteration`.  Sampled kernel data
enters through `Env` (a cycle in which the unguarded reads of
`get_memory_info` / `get_uptime` / `get_loadavg` succeed — on failure the
program aborts, see the `get_memory_info` section).  `Env.procs` holds the
successful `get_process_info` results in `os.listdir` order;
`Env.cpuStats` is the parsed `get_cpu_stats()` dict in insertion order. -/

/-- The per-process fields `get_process_info` returns (lines 139-147);
`cpu_time` is derived from `ticks` and the clock-tick constant. -/
structure ProcEntry where
  pid : ℤ
  name : List Char
  state : List Char
  ticks : ℤ
  rss : ℤ
  uid : ℕ

/-- `proc["cpu_time"] = ticks / CLOCK_TICKS` (line 144). -/
def cpu_time (clk : ℚ) (e : ProcEntry) : ℚ :=
  (e.ticks : ℚ) / clk

/-- Lookup in a dict represented as its insertion sequence: a later
assignment to the same key wins, exactly as for a Python dict. -/
def dict_get_assoc {α β : Type} [DecidableEq α] : List (α × β) → α → Option β
  | [], _ => none
  | (k, v) :: rest, q =>
    match dict_get_assoc rest q with
    | some r => some r
    | none => if q = k then some v else none

/-- `int(x.replace("cpu", ""))` on a well-formed per-core key `cpuN`. -/
def coreIndex (s : String) : ℕ :=
  ((s.drop 3).toNat?).getD 0

/-- The derived process list of lines 377-392 (before sorting): each entry
paired with its `cpu_usage`; one shared `std` for the whole cycle. -/
def derive_procs (prev : ℤ → Option ℤ) (std : ℚ) (cc : ℕ)
    (procs : List ProcEntry) : List (ProcEntry × ℚ) :=
  procs.map (fun e => (e, proc_cpu_usage (prev e.pid) e.ticks std cc))

/-- `curr_procs_state` (lines 373, 391): a fresh dict filled with
`pid ↦ ticks` in enumeration order. -/
def new_proc_state : (ℤ → Option ℤ) → List ProcEntry → ℤ → Option ℤ
  | st, [] => st
  | st, e :: rest => new_proc_state (dict_insert st e.pid e.ticks) rest

/-- The four stable sorts of lines 394-401 (`mergeSort` preserves the
enumeration order on ties, as `list.sort` does). -/
def sort_display (sk : SortKey) (clk : ℚ) (l : List (ProcEntry × ℚ)) :
    List (ProcEntry × ℚ) :=
  match sk with
  | .cpu => l.mergeSort (fun a b => decide (b.2 ≤ a.2))
  | .mem => l.mergeSort (fun a b => decide (b.1.rss ≤ a.1.rss))
  | .pid => l.mergeSort (fun a b => decide (a.1.pid ≤ b.1.pid))
  | .time => l.mergeSort (fun a b => decide (cpu_time clk b.1 ≤ cpu_time clk a.1))

/-- The per-core bar grid loop (lines 272-296), iterating `i` over
`range(half)` while threading `row` and stopping at the bottom edge.
`cores[i]` is always in range (`i < half ≤ len(cores)`), so `getD` never
takes its default. -/
def core_bars_loop (maxY maxX : ℕ) (cores : List String)
    (curr prev : List (String × ℚ × ℚ)) (labelWidth : ℕ)
    (barWidth colWidth : ℤ) (half : ℕ) :
    List ℕ → ℤ → List DrawOp × ℤ
  | [], row => ([], row)
  | i :: rest, row =>
    if (maxY : ℤ) ≤ row then ([], row)
    else
      let leftName := cores.getD i ""
      let leftUsage := calculate_cpu_usage
        ((dict_get_assoc curr leftName).getD (0, 0))
        ((dict_get_assoc prev leftName).getD (0, 0))
      let ops1 := display_text maxY maxX row 2
        (padRight leftName.toUpper labelWidth ++ ": ")
      let ops2 := draw_bar maxY maxX row (2 + (labelWidth : ℤ) + 2)
        leftUsage barWidth.toNat
      let j := i + half
      let ops3 :=
        if j < cores.length then
          let rc : ℤ := 2 + colWidth + 2
          let rightName := cores.getD j ""
          let rightUsage := calculate_cpu_usage
            ((dict_get_assoc curr rightName).getD (0, 0))
            ((dict_get_assoc prev rightName).getD (0, 0))
          display_text maxY maxX row rc
            (padRight rightName.toUpper labelWidth ++ ": ") ++
          draw_bar maxY maxX row (rc + (labelWidth : ℤ) + 2)
            rightUsage barWidth.toNat
        else []
      let (more, r2) := core_bars_loop maxY maxX cores curr prev labelWidth
        barWidth colWidth half rest (row + 1)
      (ops1 ++ ops2 ++ ops3 ++ more, r2)

/-- The visible process-row loop (lines 409-437), threading the row counter
and the identity cache, stopping at the footer boundary. -/
def proc_rows_loop (maxY maxX : ℕ) (memTotal : ℤ) (nameWidth : ℕ) (clk : ℚ)
    (pwdb : ℕ → Option String) :
    List (ProcEntry × ℚ) → (ℕ → Option String) → ℤ →
      List DrawOp × (ℕ → Option String) × ℤ
  | [], cache, row => ([], cache, row)
  | (e, cpu) :: rest, cache, row =>
    if (maxY : ℤ) - 2 ≤ row then ([], cache, row)
    else
      let res := get_user e.uid cache pwdb
      let user := res.1
      let cache2 := res.2.1
      let procMem : ℚ :=
        if memTotal ≠ 0 then ((e.rss : ℚ) / (memTotal : ℚ)) * 100 else 0
      let userT := String.mk (trunc_user user.data)
      let nameT := String.mk (trunc_name e.name nameWidth)
      let line :=
        padLeft (toString e.pid) 7 ++ " | " ++ padRight userT 12 ++ " | " ++
        padLeft (pyFmt1 cpu) 5 ++ "% | " ++ padLeft (pyFmt1 procMem) 5 ++
        "% | " ++ padLeft (format_time (cpu_time clk e)) 8 ++ " | " ++
        padCenter (String.mk e.state) 5 ++ " | " ++ padRight nameT nameWidth
      let ops := display_text maxY maxX row 0 line
      let (more, cache3, r2) :=
        proc_rows_loop maxY maxX memTotal nameWidth clk pwdb rest cache2 (row + 1)
      (ops ++ more, cache3, r2)

/-- The sampled inputs of one loop iteration. -/
structure Env where
  maxY : ℕ
  maxX : ℕ
  cpuStats : List (String × ℚ × ℚ)
  memInfo : MemInfo
  uptimeStr : String
  loadavgStr : String
  procs : List ProcEntry
  pwdb : ℕ → Option String
  clk : ℚ
  cpuCount : Option ℕ
  key : KeyEvent

/-- The mutable state the loop carries across iterations
(lines 226-234 and 457-458). -/
structure LoopState where
  prevCpu : List (String × ℚ × ℚ)
  prevProcs : ℤ → Option ℤ
  userCache : ℕ → Option String
  sortKey : SortKey
  scrollOffset : ℤ
  maxProcRows : ℕ

/-- One iteration of the `while True` body (lines 236-490): the
`Terminal too small!` branch (lines 241-242) or the full layout, then the
key dispatch.  Returns the next state and the draw ops of the cycle. -/
def iteration (env : Env) (st : LoopState) : LoopState × List DrawOp :=
  if env.maxY < 10 ∨ env.maxX < 40 then
    let ops := display_text env.maxY env.maxX 0 0 "Terminal too small!"
    let ks := handle_key env.key st.sortKey st.scrollOffset 0 st.maxProcRows
    ({ st with sortKey := ks.1, scrollOffset := ks.2 }, ops)
  else
    let maxY := env.maxY
    let maxX := env.maxX
    let curr := env.cpuStats
    let cores := List.mergeSort
      ((curr.map Prod.fst).filter (fun k => k ≠ "cpu"))
      (fun a b => decide (coreIndex a ≤ coreIndex b))
    let labelWidth : ℕ := max
      (match cores.getLast? with
       | some lastCore => 3 + (lastCore.drop 3).length
       | none => 3) 3
    let barWidth : ℤ :=
      max 5 (Int.fdiv ((maxX : ℤ) - 4 - 2 * ((labelWidth : ℤ) + 11)) 2)
    let aggCurr := (dict_get_assoc curr "cpu").getD (0, 0)
    let aggPrev := (dict_get_assoc st.prevCpu "cpu").getD (0, 0)
    let globalUsage := calculate_cpu_usage aggCurr aggPrev
    let avgBarWidth : ℤ := 2 * barWidth + (labelWidth : ℤ) + 13
    let ops0 := display_text maxY maxX 0 2 (padRight "AVG" labelWidth ++ ": ") ++
      draw_bar maxY maxX 0 (2 + (labelWidth : ℤ) + 2) globalUsage avgBarWidth.toNat
    let half := (cores.length + 1) / 2
    let colWidth : ℤ := (labelWidth : ℤ) + 2 + barWidth + 9
    let cb := core_bars_loop maxY maxX cores curr st.prevCpu labelWidth
      barWidth colWidth half (List.range half) 1
    let ops1 := cb.1
    let row2 := cb.2
    let header := "Uptime: " ++ env.uptimeStr ++ "  Load: " ++ env.loadavgStr
    let ops2 :=
      if row2 < (maxY : ℤ) then
        display_text maxY maxX row2 (max 0 ((maxX : ℤ) - header.length - 1)) header
      else []
    let row3 := if row2 < (maxY : ℤ) then row2 + 1 else row2
    let memTotal := env.memInfo.memTotal
    let memUsed := memTotal - env.memInfo.memAvailable
    let memPercent : ℚ :=
      if memTotal ≠ 0 then ((memUsed : ℚ) / (memTotal : ℚ)) * 100 else 0
    let swapTotal := env.memInfo.swapTotal
    let swapUsed := swapTotal - env.memInfo.swapFree
    let swapPercent : ℚ :=
      if swapTotal ≠ 0 then ((swapUsed : ℚ) / (swapTotal : ℚ)) * 100 else 0
    let memUsedStr := format_kb memUsed
    let memTotalStr := format_kb memTotal
    let swapUsedStr := format_kb swapUsed
    let swapTotalStr := format_kb swapTotal
    let valWidth := max (max memUsedStr.length memTotalStr.length)
      (max swapUsedStr.length swapTotalStr.length)
    let memLbl := "  Mem: " ++ padLeft memUsedStr valWidth ++ "/" ++
      padLeft memTotalStr valWidth ++ " "
    let ops3 :=
      if row3 < (maxY : ℤ) then
        display_text maxY maxX row3 0 memLbl ++
        draw_bar maxY maxX row3 (memLbl.length : ℤ) memPercent 20
      else []
    let row4 := if row3 < (maxY : ℤ) then row3 + 1 else row3
    let swpLbl := "  Swp: " ++ padLeft swapUsedStr valWidth ++ "/" ++
      padLeft swapTotalStr valWidth ++ " "
    let ops4 :=
      if row4 < (maxY : ℤ) then
        display_text maxY maxX row4 0 swpLbl ++
        draw_bar maxY maxX row4 (swpLbl.length : ℤ) swapPercent 20
      else []
    let row5 := if row4 < (maxY : ℤ) then row4 + 1 else row4
    let sep := String.mk (List.replicate (maxX - 1) '=')
    let nameWidth := name_width maxX
    let ops5 := if row5 < (maxY : ℤ) then display_text maxY maxX row5 0 sep else []
    let row6 := if row5 < (maxY : ℤ) then row5 + 1 else row5
    let pidLabel := if st.sortKey = SortKey.pid then "▼PID" else "PID"
    let cpuLabel := if st.sortKey = SortKey.cpu then "▼%CPU" else "%CPU"
    let memLabel := if st.sortKey = SortKey.mem then "▼%MEM" else "%MEM"
    let timeLabel := if st.sortKey = SortKey.time then "▼TIME" else "TIME"
    let hdr := padLeft pidLabel 7 ++ " | " ++ padRight "USER" 12 ++ " | " ++
      padLeft cpuLabel 6 ++ " | " ++ padLeft memLabel 6 ++ " | " ++
      padLeft timeLabel 8 ++ " | " ++ padCenter "STATE" 5 ++ " | " ++
      padRight "NAME" nameWidth
    let ops6 := if row6 < (maxY : ℤ) then display_text maxY maxX row6 0 hdr else []
    let row7 := if row6 < (maxY : ℤ) then row6 + 1 else row6
    let ops7 := if row7 < (maxY : ℤ) then display_text maxY maxX row7 0 sep else []
    let row8 := if row7 < (maxY : ℤ) then row7 + 1 else row7
    let std := sys_total_delta aggCurr aggPrev
    let cc := cpu_count_or_1 env.cpuCount
    let displayList := sort_display st.sortKey env.clk
      (derive_procs st.prevProcs std cc env.procs)
    let currProcs := new_proc_state (fun _ => none) env.procs
    let len := displayList.length
    let s1 := clamp_scroll st.scrollOffset len
    let mpr := (max 0 ((maxY : ℤ) - row8 - 2)).toNat
    let visible := (displayList.drop s1.toNat).take mpr
    let pr := proc_rows_loop maxY maxX memTotal nameWidth env.clk env.pwdb
      visible st.userCache row8
    let ops8 := pr.1
    let cache2 := pr.2.1
    let row9 := pr.2.2
    let footerRow : ℤ := (maxY : ℤ) - 2
    let ops9 :=
      if row9 ≤ footerRow ∧ footerRow < (maxY : ℤ) then
        display_text maxY maxX footerRow 0 sep
      else []
    let sortLabel :=
      match st.sortKey with
      | .cpu => "CPU%"
      | .mem => "MEM%"
      | .pid => "PID"
      | .time => "TIME"
    let status := " Tasks: " ++ toString len ++ " | Sort: " ++ sortLabel ++
      " (P=CPU M=Mem N=PID T=Time) | q=Quit"
    let ops10 :=
      if footerRow + 1 < (maxY : ℤ) then
        display_text maxY maxX (footerRow + 1) 0 status
      else []
    let ks := handle_key env.key st.sortKey s1 len mpr
    ({ prevCpu := curr, prevProcs := currProcs, userCache := cache2,
       sortKey := ks.1, scrollOffset := ks.2, maxProcRows := mpr },
     ops0 ++ ops1 ++ ops2 ++ ops3 ++ ops4 ++ ops5 ++ ops6 ++ ops7 ++
       ops8 ++ ops9 ++ ops10)

/-! ## Shared helper lemmas -/

/-- On an undersized terminal the loop body reduces to the advisory write
plus the key dispatch (lines 241-242 and 462-490). -/
theorem iteration_degenerate (env : Env) (st : LoopState)
    (h : env.maxY < 10 ∨ env.maxX < 40) :
    iteration env st =
      ({ st with
          sortKey :=
            (handle_key env.key st.sortKey st.scrollOffset 0 st.maxProcRows).1,
          scrollOffset :=
            (handle_key env.key st.sortKey st.scrollOffset 0 st.maxProcRows).2 },
        display_text env.maxY env.maxX 0 0 "Terminal too small!") := by
  unfold iteration
  rw [if_pos h]

/-- `display_text` either clips everything or writes one truncated string. -/
theorem display_text_cases (maxY maxX : ℕ) (row col : ℤ) (text : String) :
    display_text maxY maxX row col text = [] ∨
    display_text maxY maxX row col text =
      [⟨row, col, String.mk (text.data.take ((maxX : ℤ) - col).toNat)⟩] := by
  by_cases h1 : row < 0 ∨ (maxY : ℤ) ≤ row ∨ (maxX : ℤ) ≤ col ∨ col < 0
  · exact Or.inl (by simp [display_text, h1])
  · by_cases h2 : (maxX : ℤ) - col ≤ 0
    · exact Or.inl (by simp [display_text, h1, h2])
    · exact Or.inr (by simp [display_text, h1, h2])

/-! ## Claim C1 -/

/-- Claim C1: for every pair of `(total, idle)` snapshots,
`calculate_cpu_usage` returns `100 * (Δtotal - Δidle) / Δtotal` when the
total delta is positive and `0` when it is `≤ 0`; in particular it returns
`50` for `curr = (1000, 500)`, `prev = (900, 450)`. -/
theorem C1_cpu_percent (curr prev : ℚ × ℚ) :
    (0 < curr.1 - prev.1 →
      calculate_cpu_usage curr prev =
        100 * ((curr.1 - prev.1) - (curr.2 - prev.2)) / (curr.1 - prev.1)) ∧
    (curr.1 - prev.1 ≤ 0 → calculate_cpu_usage curr prev = 0) ∧
    calculate_cpu_usage (1000, 500) (900, 450) = 50 := by
  refine ⟨?_, ?_, ?_⟩
  · intro h
    unfold calculate_cpu_usage
    rw [if_neg (by linarith)]
    ring
  · intro h
    unfold calculate_cpu_usage
    rw [if_pos h]
  · norm_num [calculate_cpu_usage]

/-- Witness for C1 at `curr = (1000, 500)`, `prev = (900, 450)`. -/
theorem C1_cpu_percent_witness :
    calculate_cpu_usage (1000, 500) (900, 450) =
      100 * (((1000 : ℚ) - 900) - (500 - 450)) / (1000 - 900) := by
  have h := (C1_cpu_percent (1000, 500) (900, 450)).1 (by norm_num)
  simpa using h

/-! ## Claim C8 -/

/-- Claim C8: `get_user` returns the cached name on a hit without touching
the lookup, falls back to the decimal string of an unmapped uid, performs
at most one lookup per call, and a repeated call for the same uid hits the
cache (same string, same cache, zero lookups). -/
theorem C8_get_user (uid : ℕ) (cache pwdb : ℕ → Option String) :
    (∀ u, cache uid = some u → get_user uid cache pwdb = (u, cache, 0)) ∧
    (cache uid = none → pwdb uid = none →
      (get_user uid cache pwdb).1 = toString uid) ∧
    (get_user uid cache pwdb).2.2 ≤ 1 ∧
    (get_user uid (get_user uid cache pwdb).2.1 pwdb).1 =
      (get_user uid cache pwdb).1 ∧
    (get_user uid (get_user uid cache pwdb).2.1 pwdb).2.1 =
      (get_user uid cache pwdb).2.1 ∧
    (get_user uid (get_user uid cache pwdb).2.1 pwdb).2.2 = 0 := by
  cases h : cache uid with
  | some u => simp [get_user, h]
  | none =>
    cases hp : pwdb uid with
    | some n => simp [get_user, h, hp, dict_insert]
    | none => simp [get_user, h, hp, dict_insert]

/-- Witness for C8 at uid 1000 with an empty cache and an empty password
database: the fallback is the decimal string, with at most one lookup. -/
theorem C8_get_user_witness :
    (get_user 1000 (fun _ => none) (fun _ => none)).1 = "1000" ∧
    (get_user 1000 (fun _ => none) (fun _ => none)).2.2 ≤ 1 := by
  have h := C8_get_user 1000 (fun _ => none) (fun _ => none)
  refine ⟨?_, h.2.2.1⟩
  rw [h.2.1 rfl rfl]
  rfl

/-! ## Claim C9 -/

/-- Counterexample to C9: a 13-character username is truncated with a tilde
marker, not an ellipsis marker — the result contains no `…`. -/
theorem C9_counterexample :
    trunc_user "abcdefghijklm".data = "abcdefghijk~".data ∧
    '…' ∉ trunc_user "abcdefghijklm".data := by
  decide

/-- Claim C9 as amended: a command name longer than the name-column width
(floor 4) is truncated to width with a trailing ellipsis `…`; a username
longer than 12 characters is truncated to 12 with a trailing tilde `~`
(not an ellipsis). -/
theorem C9_truncation (maxX : ℕ) (nm user : List Char) :
    4 ≤ name_width maxX ∧
    (name_width maxX < nm.length →
      trunc_name nm (name_width maxX) = nm.take (name_width maxX - 1) ++ ['…'] ∧
      (trunc_name nm (name_width maxX)).length = name_width maxX ∧
      (trunc_name nm (name_width maxX)).getLast? = some '…') ∧
    (12 < user.length →
      trunc_user user = user.take 11 ++ ['~'] ∧
      (trunc_user user).length = 12 ∧
      (trunc_user user).getLast? = some '~') := by
  have h4 : 4 ≤ name_width maxX := le_max_left _ _
  refine ⟨h4, ?_, ?_⟩
  · intro h
    unfold trunc_name
    rw [if_pos h]
    refine ⟨rfl, ?_, List.getLast?_concat _⟩
    simp only [List.length_append, List.length_take, List.length_singleton]
    omega
  · intro h
    unfold trunc_user
    rw [if_pos h]
    refine ⟨rfl, ?_, List.getLast?_concat _⟩
    simp only [List.length_append, List.length_take, List.length_singleton]
    omega

/-- Witness for C9 (amended) on an 80-column terminal with a 28-character
command name and an 18-character username. -/
theorem C9_truncation_witness :
    (trunc_name "averyveryverylongprocessname".data (name_width 80)).length =
      name_width 80 ∧
    (trunc_user "reallylongusername".data).length = 12 := by
  have h := C9_truncation 80 "averyveryverylongprocessname".data
    "reallylongusername".data
  exact ⟨(h.2.1 (by decide)).2.1, (h.2.2 (by decide)).2.1⟩

/-! ## Claim C3 -/

/-- Counterexample to C3: with an empty process list (`rowCount = 0`) and
`scroll_offset = 0`, a page-down lands on `-1`, a negative scroll offset. -/
theorem C3_counterexample :
    (handle_key KeyEvent.kNpage SortKey.cpu 0 0 5).2 = -1 ∧
    ¬ 0 ≤ (handle_key KeyEvent.kNpage SortKey.cpu 0 0 5).2 := by
  decide

/-- Claim C3 as amended: starting from an in-range offset, every transition
keeps `scroll_offset` in `[0, max 0 (rowCount - 1)]` except that page-down
yields `-1` when the list is empty, and end yields `rowCount` (one past the
bound) when the page size is 0; the per-cycle refresh clamp restores the
interval from any offset. -/
theorem C3_scroll_clamped (k : KeyEvent) (sk : SortKey) (s : ℤ) (len mpr : ℕ)
    (s2 : ℤ) (hs0 : 0 ≤ s) (hs1 : s ≤ max 0 ((len : ℤ) - 1)) :
    (k ≠ KeyEvent.kNpage → k ≠ KeyEvent.kEnd →
      0 ≤ (handle_key k sk s len mpr).2 ∧
      (handle_key k sk s len mpr).2 ≤ max 0 ((len : ℤ) - 1)) ∧
    (k = KeyEvent.kNpage → 1 ≤ len →
      0 ≤ (handle_key k sk s len mpr).2 ∧
      (handle_key k sk s len mpr).2 ≤ max 0 ((len : ℤ) - 1)) ∧
    (k = KeyEvent.kNpage → len = 0 → (handle_key k sk s len mpr).2 = -1) ∧
    (k = KeyEvent.kEnd → 1 ≤ mpr →
      0 ≤ (handle_key k sk s len mpr).2 ∧
      (handle_key k sk s len mpr).2 ≤ max 0 ((len : ℤ) - 1)) ∧
    (k = KeyEvent.kEnd → mpr = 0 → (handle_key k sk s len mpr).2 = (len : ℤ)) ∧
    (0 ≤ clamp_scroll s2 len ∧ clamp_scroll s2 len ≤ max 0 ((len : ℤ) - 1)) := by
  cases k <;>
    simp only [handle_key, clamp_scroll, ne_eq, not_false_eq_true, not_true_eq_false,
      false_implies, true_implies, IsEmpty.forall_iff, forall_const, reduceCtorEq] <;>
    refine ⟨?_, ?_, ?_, ?_, ?_, ?_⟩ <;>
    first
      | trivial
      | omega

/-- Witness for C3 (amended): a line-down from offset 0 over 3 rows stays
in range, and the refresh clamp brings 7 back into range. -/
theorem C3_scroll_clamped_witness :
    (0 ≤ (handle_key KeyEvent.kDown SortKey.cpu 0 3 2).2 ∧
      (handle_key KeyEvent.kDown SortKey.cpu 0 3 2).2 ≤ max 0 ((3 : ℤ) - 1)) ∧
    (0 ≤ clamp_scroll 7 3 ∧ clamp_scroll 7 3 ≤ max 0 ((3 : ℤ) - 1)) := by
  have h := C3_scroll_clamped KeyEvent.kDown SortKey.cpu 0 3 2 7
    (by decide) (by decide)
  exact ⟨h.1 (by decide) (by decide), h.2.2.2.2.2⟩

/-! ## Claim C2 -/

/-- Counterexample to C2: with an aggregate total delta of `-100` (counter
reset) the code divides by `max(1, Δ) = 1`, so a process with tick delta 10
on a 2-core host gets 2000, not the claim's `10 / (-100) * 100 * 2`. -/
theorem C2_counterexample :
    derive_procs (fun p => if p = 1 then some 0 else none)
        (sys_total_delta (900, 450) (1000, 500)) 2
        [⟨1, "x".data, "R".data, 10, 0, 0⟩] =
      [(⟨1, "x".data, "R".data, 10, 0, 0⟩, 2000)] ∧
    (2000 : ℚ) ≠ (10 - 0) / ((900 : ℚ) - 1000) * 100 * 2 := by
  constructor
  · show [((⟨1, "x".data, "R".data, 10, 0, 0⟩ : ProcEntry),
      proc_cpu_usage (some 0) 10 (sys_total_delta (900, 450) (1000, 500)) 2)] = _
    norm_num [proc_cpu_usage, sys_total_delta]
  · norm_num

/-- Claim C2 as amended: every process row of a cycle with a previous-cycle
tick entry carries `(Δticks / max(1, Δaggtotal)) * 100 * coreCount`, the
same denominator for the whole cycle and unclamped; when the aggregate
total delta is at least 1 this is exactly the claimed
`(Δticks / Δaggtotal) * 100 * coreCount`. -/
theorem C2_proc_cpu_formula (prev : ℤ → Option ℤ) (aggCurr aggPrev : ℚ × ℚ)
    (cc : ℕ) (procs : List ProcEntry) (e : ProcEntry) (p : ℤ)
    (he : e ∈ procs) (hp : prev e.pid = some p) :
    (e, ((e.ticks : ℚ) - p) / max 1 (aggCurr.1 - aggPrev.1) * 100 * cc) ∈
      derive_procs prev (sys_total_delta aggCurr aggPrev) cc procs ∧
    ∀ sk clk,
      (e, ((e.ticks : ℚ) - p) / max 1 (aggCurr.1 - aggPrev.1) * 100 * cc) ∈
        sort_display sk clk
          (derive_procs prev (sys_total_delta aggCurr aggPrev) cc procs) ∧
    (1 ≤ aggCurr.1 - aggPrev.1 →
      ((e.ticks : ℚ) - p) / max 1 (aggCurr.1 - aggPrev.1) * 100 * cc =
        ((e.ticks : ℚ) - p) / (aggCurr.1 - aggPrev.1) * 100 * cc) := by
  have hmem : (e, ((e.ticks : ℚ) - p) / max 1 (aggCurr.1 - aggPrev.1) * 100 * cc) ∈
      derive_procs prev (sys_total_delta aggCurr aggPrev) cc procs := by
    have h := List.mem_map_of_mem
      (fun e => (e, proc_cpu_usage (prev e.pid) e.ticks
        (sys_total_delta aggCurr aggPrev) cc)) he
    simpa [derive_procs, proc_cpu_usage, hp, sys_total_delta] using h
  refine ⟨hmem, fun sk clk => ⟨?_, fun h => by rw [max_eq_right h]⟩⟩
  cases sk <;>
    exact ((List.mergeSort_perm _ _).mem_iff).mpr hmem

/-- Witness for C2 (amended): a process with tick delta 50 over an
aggregate delta of 100 on a 4-core host reports 200 percent —
the same unclamped formula, exceeding 100. -/
theorem C2_proc_cpu_formula_witness :
    ((⟨1, "x".data, "R".data, 52, 0, 0⟩ : ProcEntry), (200 : ℚ)) ∈
      derive_procs (fun p => if p = 1 then some 2 else none)
        (sys_total_delta (1100, 500) (1000, 450)) 4
        [⟨1, "x".data, "R".data, 52, 0, 0⟩] := by
  have h := C2_proc_cpu_formula (fun p => if p = 1 then some 2 else none)
    (1100, 500) (1000, 450) 4 [⟨1, "x".data, "R".data, 52, 0, 0⟩]
    ⟨1, "x".data, "R".data, 52, 0, 0⟩ 2 (List.mem_singleton.mpr rfl) rfl
  have h1 := h.1
  norm_num at h1 ⊢
  exact h1

/-! ## Claim C4 -/

/-- Keys absent from the inserted entries look up through to the base. -/
theorem new_proc_state_eq_of_not_mem (st : ℤ → Option ℤ)
    (procs : List ProcEntry) (q : ℤ) (h : ∀ e ∈ procs, e.pid ≠ q) :
    new_proc_state st procs q = st q := by
  induction procs generalizing st with
  | nil => rfl
  | cons e rest ih =>
    have h1 : e.pid ≠ q := h e (List.mem_cons_self e rest)
    have h2 : ∀ x ∈ rest, x.pid ≠ q := fun x hx => h x (List.mem_cons_of_mem _ hx)
    show new_proc_state (dict_insert st e.pid e.ticks) rest q = st q
    rw [ih _ h2]
    simp [dict_insert, if_neg (Ne.symm h1)]

/-- With pairwise-distinct pids, `curr_procs_state` maps each observed pid
to its ticks. -/
theorem new_proc_state_lookup (st : ℤ → Option ℤ) (procs : List ProcEntry)
    (e : ProcEntry) (he : e ∈ procs)
    (hnd : (procs.map ProcEntry.pid).Nodup) :
    new_proc_state st procs e.pid = some e.ticks := by
  induction procs generalizing st with
  | nil => cases he
  | cons x rest ih =>
    rcases List.mem_cons.mp he with h | h
    · subst h
      have hnotin : ∀ y ∈ rest, y.pid ≠ e.pid := by
        intro y hy hcontra
        have : e.pid ∈ rest.map ProcEntry.pid := hcontra ▸ List.mem_map_of_mem _ hy
        exact (List.nodup_cons.mp hnd).1 this
      show new_proc_state (dict_insert st e.pid e.ticks) rest e.pid = some e.ticks
      rw [new_proc_state_eq_of_not_mem _ _ _ hnotin]
      simp [dict_insert]
    · exact ih _ h ((List.nodup_cons.mp hnd).2)

/-- Claim C4: a process with no entry in the previous cycle's tick map gets
`cpu_usage = 0` for that cycle (while its ticks enter the new map); in the
next cycle, derived against that map, it gets the tick-delta formula, which
is nonzero whenever its tick delta is nonzero. -/
theorem C4_fresh_process (prev : ℤ → Option ℤ)
    (agg1c agg1p agg2c agg2p : ℚ × ℚ) (ccRaw : Option ℕ)
    (procs1 procs2 : List ProcEntry) (e1 e2 : ProcEntry)
    (hpid : e2.pid = e1.pid) (hfresh : prev e1.pid = none)
    (h1 : e1 ∈ procs1) (hnd : (procs1.map ProcEntry.pid).Nodup)
    (h2 : e2 ∈ procs2) :
    (e1, (0 : ℚ)) ∈ derive_procs prev (sys_total_delta agg1c agg1p)
      (cpu_count_or_1 ccRaw) procs1 ∧
    (e2, ((e2.ticks : ℚ) - e1.ticks) / sys_total_delta agg2c agg2p * 100 *
        (cpu_count_or_1 ccRaw)) ∈
      derive_procs (new_proc_state (fun _ => none) procs1)
        (sys_total_delta agg2c agg2p) (cpu_count_or_1 ccRaw) procs2 ∧
    (e2.ticks ≠ e1.ticks →
      ((e2.ticks : ℚ) - e1.ticks) / sys_total_delta agg2c agg2p * 100 *
        (cpu_count_or_1 ccRaw) ≠ 0) := by
  have hcc : 1 ≤ cpu_count_or_1 ccRaw := by
    cases ccRaw with
    | none => exact le_refl 1
    | some k =>
      show 1 ≤ if k = 0 then 1 else k
      by_cases hk : k = 0
      · simp [hk]
      · rw [if_neg hk]
        omega
  refine ⟨?_, ?_, ?_⟩
  · have h := List.mem_map_of_mem
      (fun e => (e, proc_cpu_usage (prev e.pid) e.ticks
        (sys_total_delta agg1c agg1p) (cpu_count_or_1 ccRaw))) h1
    simpa [derive_procs, proc_cpu_usage, hfresh] using h
  · have hlook : new_proc_state (fun _ => none) procs1 e2.pid = some e1.ticks := by
      rw [hpid]
      exact new_proc_state_lookup _ _ _ h1 hnd
    have h := List.mem_map_of_mem
      (fun e => (e, proc_cpu_usage
        (new_proc_state (fun _ => none) procs1 e.pid) e.ticks
        (sys_total_delta agg2c agg2p) (cpu_count_or_1 ccRaw))) h2
    simpa [derive_procs, proc_cpu_usage, hlook] using h
  · intro hne
    have hnum : ((e2.ticks : ℚ) - e1.ticks) ≠ 0 := by
      rw [sub_ne_zero]
      exact_mod_cast hne
    have hstd : sys_total_delta agg2c agg2p ≠ 0 := by
      have : (1 : ℚ) ≤ sys_total_delta agg2c agg2p := le_max_left _ _
      linarith
    have hccq : ((cpu_count_or_1 ccRaw : ℕ) : ℚ) ≠ 0 := by
      exact_mod_cast Nat.one_le_iff_ne_zero.mp hcc
    exact mul_ne_zero (mul_ne_zero (div_ne_zero hnum hstd) (by norm_num)) hccq

/-- Witness for C4: pid 1 appears fresh with 5 ticks (reports 0), then with
15 ticks over an aggregate delta of 200 on one core (reports 5 percent). -/
theorem C4_fresh_process_witness :
    ((⟨1, "x".data, "R".data, 5, 0, 0⟩ : ProcEntry), (0 : ℚ)) ∈
      derive_procs (fun _ => none) (sys_total_delta (1200, 500) (1000, 450)) 1
        [⟨1, "x".data, "R".data, 5, 0, 0⟩] ∧
    ((15 : ℚ) - 5) / sys_total_delta (1500, 700) (1300, 600) * 100 * 1 ≠ 0 := by
  have h := C4_fresh_process (fun _ => none) (1200, 500) (1000, 450)
    (1500, 700) (1300, 600) none
    [⟨1, "x".data, "R".data, 5, 0, 0⟩] [⟨1, "y".data, "S".data, 15, 0, 0⟩]
    ⟨1, "x".data, "R".data, 5, 0, 0⟩ ⟨1, "y".data, "S".data, 15, 0, 0⟩
    rfl rfl (List.mem_singleton.mpr rfl) (by simp) (List.mem_singleton.mpr rfl)
  refine ⟨h.1, ?_⟩
  have h3 := h.2.2 (by decide)
  simpa [cpu_count_or_1] using h3

/-! ## Claim C5 -/

/-- A scan that meets a `MemTotal:` line whose value field does not parse
ends in an error, whatever came before. -/
theorem mem_fold_error_of_bad (ls : List (List String)) (v : String)
    (rest : List String) (hmem : ("MemTotal:" :: v :: rest) ∈ ls)
    (hv : parsePyInt v = none) :
    ∀ acc, ∃ e, mem_fold acc ls = Except.error e := by
  induction ls with
  | nil => cases hmem
  | cons l t ih =>
    intro acc
    rcases List.mem_cons.mp hmem with h | h
    · have hstep : mem_step acc ("MemTotal:" :: v :: rest) =
          Except.error PyErr.valueError := by
        simp [mem_step, hv]
      refine ⟨PyErr.valueError, ?_⟩
      rw [← h]
      show (match mem_step acc ("MemTotal:" :: v :: rest) with
        | .ok acc2 => mem_fold acc2 t
        | .error e => Except.error e) = _
      rw [hstep]
    · cases hs : mem_step acc l with
      | ok acc2 =>
        obtain ⟨e, he⟩ := ih h acc2
        refine ⟨e, ?_⟩
        show (match mem_step acc l with
          | .ok acc2 => mem_fold acc2 t
          | .error e => Except.error e) = _
        rw [hs]
        exact he
      | error e =>
        refine ⟨e, ?_⟩
        show (match mem_step acc l with
          | .ok acc2 => mem_fold acc2 t
          | .error e => Except.error e) = _
        rw [hs]

/-- Counterexample to C5: on an unreadable file all three samplers
propagate the exception (there is no handler in lines 164-218), instead of
returning a zero/absent data point and letting the cycle continue. -/
theorem C5_counterexample :
    get_memory_info none = Except.error PyErr.ioError ∧
    get_uptime none = Except.error PyErr.ioError ∧
    get_loadavg none = Except.error PyErr.ioError := by
  exact ⟨rfl, rfl, rfl⟩

/-- Claim C5 as amended: fields missing from a readable file default to
zero, but a vanished/unreadable file or a malformed numeric field raises an
uncaught exception out of `get_memory_info` / `get_uptime` / `get_loadavg`
(aborting the cycle) instead of yielding a zero data point. -/
theorem C5_sampler_errors :
    get_memory_info (some []) = Except.ok ⟨0, 0, 0, 0⟩ ∧
    (∀ ls v rest, ("MemTotal:" :: v :: rest) ∈ ls → parsePyInt v = none →
      ∃ e, get_memory_info (some ls) = Except.error e) ∧
    get_memory_info none = Except.error PyErr.ioError ∧
    get_uptime none = Except.error PyErr.ioError ∧
    get_uptime (some ["12a34"]) = Except.error PyErr.valueError ∧
    get_loadavg none = Except.error PyErr.ioError ∧
    get_loadavg (some ["0.15"]) = Except.error PyErr.indexError := by
  refine ⟨rfl, ?_, rfl, rfl, rfl, rfl, rfl⟩
  intro ls v rest hmem hv
  exact mem_fold_error_of_bad ls v rest hmem hv _

/-- Witness for C5 (amended): a `MemTotal:` line with value `12ab` makes
`get_memory_info` raise. -/
theorem C5_sampler_errors_witness :
    ∃ e, get_memory_info (some [["MemTotal:", "12ab"]]) = Except.error e := by
  exact C5_sampler_errors.2.1 [["MemTotal:", "12ab"]] "12ab" []
    (List.mem_singleton.mpr rfl) (by decide)

/-! ## Claim C7 -/

/-- `find` on `a ++ c :: b` where `a` avoids `c` hits index `a.length`. -/
theorem findIdxOpt_append (c : Char) (a b : List Char) (h : c ∉ a) :
    findIdxOpt c (a ++ c :: b) = some a.length := by
  induction a with
  | nil => simp [findIdxOpt]
  | cons x xs ih =>
    have hx : ¬ x = c := fun hh => h (hh ▸ List.mem_cons_self x xs)
    have hxs : c ∉ xs := fun hm => h (List.mem_cons_of_mem _ hm)
    simp [findIdxOpt, hx, ih hxs]

theorem rfindIdxOpt_eq_none (c : Char) (l : List Char) (h : c ∉ l) :
    rfindIdxOpt c l = none := by
  induction l with
  | nil => rfl
  | cons x xs ih =>
    have hx : ¬ x = c := fun hh => h (hh ▸ List.mem_cons_self x xs)
    have hxs : c ∉ xs := fun hm => h (List.mem_cons_of_mem _ hm)
    simp [rfindIdxOpt, ih hxs, hx]

/-- `rfind` on `a ++ c :: b` where `b` avoids `c` hits index `a.length`. -/
theorem rfindIdxOpt_append (c : Char) (a b : List Char) (h : c ∉ b) :
    rfindIdxOpt c (a ++ c :: b) = some a.length := by
  induction a with
  | nil => simp [rfindIdxOpt, rfindIdxOpt_eq_none c b h]
  | cons x xs ih => simp [rfindIdxOpt, ih]

/-- Claim C7: on a stat record `pre ++ "(" ++ nm ++ ")" ++ post` whose pid
part has no `(` and whose field part has no `)`, `parse_stat` recovers the
command name as exactly `nm` — even when `nm` itself contains parentheses
or whitespace — and takes the state from field 0 and the ticks as the sum
of fields 11 and 12 of the text after the last `)`. -/
theorem C7_parse_stat (pre nm post st a b : List Char) (x y : ℤ)
    (hpre : '(' ∉ pre) (hpost : ')' ∉ post)
    (hst : (splitWs (post.drop 1)).get? 0 = some st)
    (ha : (splitWs (post.drop 1)).get? 11 = some a)
    (hb : (splitWs (post.drop 1)).get? 12 = some b)
    (hxa : parsePyIntL a = some x) (hyb : parsePyIntL b = some y) :
    parse_stat (pre ++ '(' :: nm ++ ')' :: post) = some (nm, st, x + y) := by
  have e1 : pyFind '(' (pre ++ '(' :: nm ++ ')' :: post) = (pre.length : ℤ) := by
    unfold pyFind
    rw [show pre ++ '(' :: nm ++ ')' :: post = pre ++ '(' :: (nm ++ ')' :: post)
      by simp]
    rw [findIdxOpt_append _ _ _ hpre]
    rfl
  have e2 : pyRfind ')' (pre ++ '(' :: nm ++ ')' :: post) =
      (pre.length : ℤ) + 1 + nm.length := by
    unfold pyRfind
    rw [show pre ++ '(' :: nm ++ ')' :: post = (pre ++ '(' :: nm) ++ ')' :: post
      by simp]
    rw [rfindIdxOpt_append _ _ _ hpost]
    simp
    ring
  have e3 : pySlice (pre ++ '(' :: nm ++ ')' :: post) ((pre.length : ℤ) + 1)
      ((pre.length : ℤ) + 1 + nm.length) = nm := by
    unfold pySlice
    have t1 : ((pre.length : ℤ) + 1).toNat = pre.length + 1 := by omega
    have t2 : ((pre.length : ℤ) + 1 + nm.length - ((pre.length : ℤ) + 1)).toNat =
        nm.length := by omega
    rw [t1, t2]
    have hd : (pre ++ '(' :: nm ++ ')' :: post).drop (pre.length + 1) =
        nm ++ ')' :: post := by
      rw [show pre ++ '(' :: nm ++ ')' :: post =
        (pre ++ ['(']) ++ (nm ++ ')' :: post) by simp]
      rw [show pre.length + 1 = (pre ++ ['(']).length by simp]
      exact List.drop_left _ _
    rw [hd, List.take_left nm (')' :: post)]
  have e4 : (pre ++ '(' :: nm ++ ')' :: post).drop
      ((pre.length : ℤ) + 1 + nm.length + 2).toNat = post.drop 1 := by
    have t3 : ((pre.length : ℤ) + 1 + nm.length + 2).toNat =
        (pre ++ '(' :: nm ++ [')']).length + 1 := by
      simp only [List.length_append, List.length_cons, List.length_nil]
      omega
    rw [show pre ++ '(' :: nm ++ ')' :: post =
      (pre ++ '(' :: nm ++ [')']) ++ post by simp]
    rw [t3]
    exact List.drop_append 1
  simp only [parse_stat]
  rw [e1, e2, e3, e4, hst, ha, hb]
  show (match parsePyIntL a, parsePyIntL b with
    | some x, some y => some (nm, st, x + y)
    | _, _ => none) = some (nm, st, x + y)
  rw [hxa, hyb]

/-- Witness for C7: a record whose command name contains parentheses and a
space is recovered in full; state `R`, ticks `7 + 5 = 12`. -/
theorem C7_parse_stat_witness :
    parse_stat ("1234 ".data ++ '(' :: "my (we)ird name".data ++ ')' ::
        " R 1 1 1 1 1 1 1 1 1 1 7 5 0 0".data) =
      some ("my (we)ird name".data, "R".data, 12) := by
  have h := C7_parse_stat "1234 ".data "my (we)ird name".data
    " R 1 1 1 1 1 1 1 1 1 1 7 5 0 0".data "R".data "7".data "5".data 7 5
    (by decide) (by decide) (by decide) (by decide) (by decide)
    (by decide) (by decide)
  simpa using h

/-! ## Claim C6 -/

/-- Claim C6: on a terminal under 10 rows or under 40 columns the cycle
draws only the single advisory line (clipped to the terminal width) at the
origin — no bars, headers, process rows, or footer. -/
theorem C6_degenerate_render (env : Env) (st : LoopState)
    (h : env.maxY < 10 ∨ env.maxX < 40) :
    (iteration env st).2 =
      display_text env.maxY env.maxX 0 0 "Terminal too small!" ∧
    (iteration env st).2.length ≤ 1 ∧
    ∀ op ∈ (iteration env st).2, op.row = 0 ∧ op.col = 0 ∧
      op.text = String.mk ("Terminal too small!".data.take env.maxX) := by
  have hit := iteration_degenerate env st h
  refine ⟨by rw [hit], ?_, ?_⟩
  · rw [hit]
    rcases display_text_cases env.maxY env.maxX 0 0 "Terminal too small!" with
      hc | hc <;> simp [hc]
  · rw [hit]
    rcases display_text_cases env.maxY env.maxX 0 0 "Terminal too small!" with
      hc | hc
    · simp [hc]
    · intro op hop
      rw [hc] at hop
      rw [List.mem_singleton] at hop
      subst hop
      refine ⟨rfl, rfl, ?_⟩
      simp

/-- Witness for C6: a 5-row, 20-column terminal yields exactly the advisory
write and nothing else. -/
theorem C6_degenerate_render_witness :
    (iteration ⟨5, 20, [], ⟨0, 0, 0, 0⟩, "", "", [], fun _ => none, 100,
        some 4, KeyEvent.kNoKey⟩
      ⟨[], fun _ => none, fun _ => none, SortKey.cpu, 0, 0⟩).2 =
      [⟨0, 0, "Terminal too small!"⟩] := by
  have h := C6_degenerate_render
    ⟨5, 20, [], ⟨0, 0, 0, 0⟩, "", "", [], fun _ => none, 100, some 4,
      KeyEvent.kNoKey⟩
    ⟨[], fun _ => none, fun _ => none, SortKey.cpu, 0, 0⟩ (Or.inl (by decide))
  rw [h.1]
  rfl

/-! ## Claim C10 -/

/-- Counterexample to C10: a degenerate iteration still dispatches keys, so
an `M` keypress changes the sort key even while the terminal is too small. -/
theorem C10_counterexample :
    (iteration ⟨5, 20, [], ⟨0, 0, 0, 0⟩, "", "", [], fun _ => none, 100,
        some 4, KeyEvent.kM⟩
      ⟨[], fun _ => none, fun _ => none, SortKey.cpu, 0, 0⟩).1.sortKey =
      SortKey.mem ∧ SortKey.mem ≠ SortKey.cpu := by
  exact ⟨rfl, by decide⟩

/-- Claim C10 as amended: a degenerate iteration performs no sampling (its
outcome depends only on terminal size and the key) and leaves the previous
CPU snapshot, the previous tick map, the identity cache, and the row budget
unchanged — so after recovery the next deltas span the whole degenerate
period — but the sort key and the scroll offset can still change, because
the key dispatch runs in every iteration. -/
theorem C10_degenerate_state (env : Env) (st : LoopState)
    (h : env.maxY < 10 ∨ env.maxX < 40) :
    (iteration env st).1.prevCpu = st.prevCpu ∧
    (iteration env st).1.prevProcs = st.prevProcs ∧
    (iteration env st).1.userCache = st.userCache ∧
    (iteration env st).1.maxProcRows = st.maxProcRows ∧
    (iteration env st).1.sortKey =
      (handle_key env.key st.sortKey st.scrollOffset 0 st.maxProcRows).1 ∧
    (iteration env st).1.scrollOffset =
      (handle_key env.key st.sortKey st.scrollOffset 0 st.maxProcRows).2 ∧
    ∀ env2 : Env, env2.maxY = env.maxY → env2.maxX = env.maxX →
      env2.key = env.key → iteration env2 st = iteration env st := by
  have hit := iteration_degenerate env st h
  refine ⟨by rw [hit], by rw [hit], by rw [hit], by rw [hit], by rw [hit],
    by rw [hit], ?_⟩
  intro env2 h1 h2 h3
  have h' : env2.maxY < 10 ∨ env2.maxX < 40 := by
    rw [h1, h2]
    exact h
  rw [iteration_degenerate env2 st h', hit, h1, h2, h3]

/-- Witness for C10 (amended): two degenerate iterations with the same
size and key but entirely different sampled data produce identical
results. -/
theorem C10_degenerate_state_witness :
    iteration ⟨5, 20, [("cpu", 500, 100)], ⟨99, 9, 9, 9⟩, "up", "ld",
        [⟨1, "x".data, "R".data, 5, 2, 0⟩], fun _ => none, 100, some 8,
        KeyEvent.kNoKey⟩
      ⟨[], fun _ => none, fun _ => none, SortKey.cpu, 0, 0⟩ =
    iteration ⟨5, 20, [], ⟨0, 0, 0, 0⟩, "", "", [], fun _ => none, 50,
        some 4, KeyEvent.kNoKey⟩
      ⟨[], fun _ => none, fun _ => none, SortKey.cpu, 0, 0⟩ := by
  have h := C10_degenerate_state
    ⟨5, 20, [], ⟨0, 0, 0, 0⟩, "", "", [], fun _ => none, 50, some 4,
      KeyEvent.kNoKey⟩
    ⟨[], fun _ => none, fun _ => none, SortKey.cpu, 0, 0⟩ (Or.inl (by decide))
  exact h.2.2.2.2.2.2 _ rfl rfl rfl

end Kannon
